import Mathlib

/-!
Shallow embedding of `src/shooter.cpp` (a minimal real-time 3D shooter loop):
the data model (scene objects with position / direction / speed / collider
radius / mesh), the sphere mesh generator, the camera basis vectors, the
player's rate-limited projectile creation, the enemy spawner, and the per-tick
simulation core (motion, pairwise collision pass, pruning, spawning).

Scalars are embedded over an arbitrary linear ordered field `α`; claims that
need exact trigonometry are stated at `α = ℝ` with `Real.cos` / `Real.sin`
standing for the C library's `cosf` / `sinf`, and claims that need concrete
evaluation are stated at `α = ℚ`.  The source's `float` arithmetic is embedded
as exact field arithmetic.
-/

namespace Shooter

/-- The constant `const float PI = 3.1416` from the source (also
`Camera::PI = 3.1416`), written as the exact rational `31416 / 10000`. -/
def PI {α : Type} [LinearOrderedField α] : α := 31416 / 10000

/-- A 3-component vector, embedding `glm::vec3`. -/
structure Vec3 (α : Type) where
  x : α
  y : α
  z : α
deriving DecidableEq, Repr

namespace Vec3

variable {α : Type} [LinearOrderedField α]

instance : Add (Vec3 α) := ⟨fun u v => ⟨u.x + v.x, u.y + v.y, u.z + v.z⟩⟩

instance : Sub (Vec3 α) := ⟨fun u v => ⟨u.x - v.x, u.y - v.y, u.z - v.z⟩⟩

/-- Componentwise vector-times-scalar product (`glm` `vec3 * float`). -/
def scale (v : Vec3 α) (c : α) : Vec3 α := ⟨v.x * c, v.y * c, v.z * c⟩

/-- Squared Euclidean length, i.e. `glm::dot(v, v)`; `glm::length v` is its
square root. -/
def len2 (v : Vec3 α) : α := v.x * v.x + v.y * v.y + v.z * v.z

/-- Dot product `glm::dot`. -/
def dot (u v : Vec3 α) : α := u.x * v.x + u.y * v.y + u.z * v.z

/-- Cross product `glm::cross`. -/
def cross (u v : Vec3 α) : Vec3 α :=
  ⟨u.y * v.z - u.z * v.y, u.z * v.x - u.x * v.z, u.x * v.y - u.y * v.x⟩

@[simp] theorem add_x (u v : Vec3 α) : (u + v).x = u.x + v.x := rfl
@[simp] theorem add_y (u v : Vec3 α) : (u + v).y = u.y + v.y := rfl
@[simp] theorem add_z (u v : Vec3 α) : (u + v).z = u.z + v.z := rfl
@[simp] theorem sub_x (u v : Vec3 α) : (u - v).x = u.x - v.x := rfl
@[simp] theorem sub_y (u v : Vec3 α) : (u - v).y = u.y - v.y := rfl
@[simp] theorem sub_z (u v : Vec3 α) : (u - v).z = u.z - v.z := rfl
@[simp] theorem scale_x (v : Vec3 α) (c : α) : (v.scale c).x = v.x * c := rfl
@[simp] theorem scale_y (v : Vec3 α) (c : α) : (v.scale c).y = v.y * c := rfl
@[simp] theorem scale_z (v : Vec3 α) (c : α) : (v.scale c).z = v.z * c := rfl

theorem len2_nonneg (v : Vec3 α) : 0 ≤ v.len2 := by
  have hx := mul_self_nonneg v.x
  have hy := mul_self_nonneg v.y
  have hz := mul_self_nonneg v.z
  unfold len2; linarith

end Vec3

variable {α : Type} [LinearOrderedField α]

/-- Exact-arithmetic rendering of the source's test `glm::length v < r`
(a square root compared with `r`): true iff `0 < r` and `len2 v < r * r`.
Over `ℝ` this is proved equivalent to `Real.sqrt v.len2 < r` below. -/
def lengthLt (v : Vec3 α) (r : α) : Bool :=
  decide (0 < r) && decide (v.len2 < r * r)

/-- Over the reals, `lengthLt` decides exactly `‖v‖ < r`
(with `‖v‖ = Real.sqrt v.len2`, as computed by `glm::length`). -/
theorem lengthLt_iff_sqrt_lt (v : Vec3 ℝ) (r : ℝ) :
    lengthLt v r = true ↔ Real.sqrt v.len2 < r := by
  unfold lengthLt
  rw [Bool.and_eq_true, decide_eq_true_eq, decide_eq_true_eq]
  constructor
  · rintro ⟨hr, hlt⟩
    have := (Real.sqrt_lt' hr).mpr (by nlinarith)
    simpa [sq] using this
  · intro h
    have hnn : 0 ≤ Real.sqrt v.len2 := Real.sqrt_nonneg _
    have hr : 0 < r := lt_of_le_of_lt hnn h
    refine ⟨hr, ?_⟩
    have := (Real.sqrt_lt' hr).mp h
    nlinarith [this]

/-- A scene object (`class SceneObject : public Model`): position, travel
direction, speed, sphere collider radius, the owned mesh (vertices + UVs),
the texture handle, and the `IsSnowBall` discriminator (`true` exactly for
projectiles, embedded as a field since the virtual method is constant per
concrete class). -/
structure SceneObject (α : Type) where
  position : Vec3 α
  direction : Vec3 α
  speed : α
  collider_radius : α
  vertices : List (Vec3 α)
  uvs : List (α × α)
  texture : ℕ
  is_snowball : Bool
deriving DecidableEq

namespace SceneObject

/-- Placeholder object used as the (never reached) default of in-range list
indexing. -/
def dummy : SceneObject α :=
  { position := ⟨0, 0, 0⟩, direction := ⟨0, 0, 0⟩, speed := 0,
    collider_radius := 0, vertices := [], uvs := [], texture := 0,
    is_snowball := false }

/-- Embeds `SceneObject::IsIntersected`: `glm::length(position_ - other.position) <
collider_radius_ + other.collider_radius`. -/
def IsIntersected (a b : SceneObject α) : Bool :=
  lengthLt (a.position - b.position) (a.collider_radius + b.collider_radius)

/-- Embeds `SceneObject::Shift`: `position_ += step`. -/
def Shift (o : SceneObject α) (step : Vec3 α) : SceneObject α :=
  { o with position := o.position + step }

end SceneObject

/-! ## The collision pass of the main loop

`main` builds `std::vector<bool> remains(objects.size(), true)` and, for every
`i`, skips `i` when `remains[i] == false and objects[i]->IsSnowBall() == false`,
otherwise scans every `j > i` and sets `remains[i] = remains[j] = false` when
`objects[i]->IsIntersected(objects[j])` and `IsSnowBall()` of the two differs
(`xor`).  Afterwards the objects with `remains[i]` true are kept
(`alive_objects`) and the others are destroyed (`delete objects[i]`). -/

/-- Body of the inner `j` loop of the collision pass. -/
def markStep (objs : List (SceneObject α)) (i : ℕ) (r : List Bool) (j : ℕ) :
    List Bool :=
  if ((objs.getD i .dummy).IsIntersected (objs.getD j .dummy)
      && ((objs.getD i .dummy).is_snowball ^^ (objs.getD j .dummy).is_snowball))
      = true then
    (r.set i false).set j false
  else r

/-- Body of the outer `i` loop of the collision pass, including the
`continue` guard for an already-marked non-projectile. -/
def passStep (objs : List (SceneObject α)) (remains : List Bool) (i : ℕ) :
    List Bool :=
  if remains.getD i true = false ∧ (objs.getD i .dummy).is_snowball = false then
    remains
  else
    (List.range' (i + 1) (objs.length - (i + 1))).foldl (markStep objs i) remains

/-- The whole collision pass: the final `remains` vector. -/
def collisionPass (objs : List (SceneObject α)) : List Bool :=
  (List.range objs.length).foldl (passStep objs) (List.replicate objs.length true)

/-- The retained collection (`alive_objects`): objects whose `remains` entry
stayed true, in order. -/
def aliveObjects (objs : List (SceneObject α)) : List (SceneObject α) :=
  ((objs.zip (collisionPass objs)).filter (fun p => p.2)).map (fun p => p.1)

/-- The destroyed objects (`delete objects[i]` branch): objects whose
`remains` entry became false, in order. -/
def deadObjects (objs : List (SceneObject α)) : List (SceneObject α) :=
  ((objs.zip (collisionPass objs)).filter (fun p => !p.2)).map (fun p => p.1)

theorem range'_len_zero (s : ℕ) : List.range' s 0 = [] := rfl

theorem range'_len_one (s : ℕ) : List.range' s 1 = [s] := rfl

theorem range'_len_two (s : ℕ) : List.range' s 2 = [s, s + 1] := rfl

/-- When `i` is the last index (or beyond), the inner loop is empty and the
outer-loop body leaves `remains` unchanged whether or not it skips. -/
theorem passStep_last (objs : List (SceneObject α)) (r : List Bool) (i : ℕ)
    (h : objs.length ≤ i + 1) : passStep objs r i = r := by
  unfold passStep
  rw [Nat.sub_eq_zero_of_le h]
  split <;> rfl

/-- If every object has the same `is_snowball` flag, the marking condition is
always false: the inner-loop body never changes `remains`. -/
theorem markStep_same_kind (objs : List (SceneObject α)) (k : Bool)
    (hk : ∀ o ∈ objs, o.is_snowball = k) (i j : ℕ)
    (hi : i < objs.length) (hj : j < objs.length) (r : List Bool) :
    markStep objs i r j = r := by
  have h1 : (objs.getD i .dummy).is_snowball = k := by
    rw [List.getD_eq_getElem _ _ hi]; exact hk _ (List.getElem_mem hi)
  have h2 : (objs.getD j .dummy).is_snowball = k := by
    rw [List.getD_eq_getElem _ _ hj]; exact hk _ (List.getElem_mem hj)
  unfold markStep
  simp only [h1, h2, Bool.xor_self, Bool.and_false]
  simp

/-- With a single kind of object present, the whole outer-loop body is the
identity on `remains`. -/
theorem passStep_same_kind (objs : List (SceneObject α)) (k : Bool)
    (hk : ∀ o ∈ objs, o.is_snowball = k) (i : ℕ) (hi : i < objs.length)
    (r : List Bool) : passStep objs r i = r := by
  unfold passStep
  have hfold : ∀ (js : List ℕ), (∀ j ∈ js, j < objs.length) → ∀ r' : List Bool,
      js.foldl (markStep objs i) r' = r' := by
    intro js
    induction js with
    | nil => intro _ r'; rfl
    | cons j js ih =>
      intro hmem r'
      rw [List.foldl_cons, markStep_same_kind objs k hk i j hi
            (hmem j (by simp)) r']
      exact ih (fun a ha => hmem a (by simp [ha])) r'
  have hrange : ∀ j ∈ List.range' (i + 1) (objs.length - (i + 1)),
      j < objs.length := by
    intro j hj
    have := List.mem_range'_1.mp hj
    omega
  split
  · rfl
  · exact hfold _ hrange r

/-- With a single kind of object present, the collision pass marks nothing. -/
theorem collisionPass_same_kind (objs : List (SceneObject α)) (k : Bool)
    (hk : ∀ o ∈ objs, o.is_snowball = k) :
    collisionPass objs = List.replicate objs.length true := by
  unfold collisionPass
  have hfold : ∀ (is : List ℕ), (∀ i ∈ is, i < objs.length) →
      ∀ r : List Bool, is.foldl (passStep objs) r = r := by
    intro is
    induction is with
    | nil => intro _ r; rfl
    | cons i is ih =>
      intro hmem r
      rw [List.foldl_cons, passStep_same_kind objs k hk i (hmem i (by simp)) r]
      exact ih (fun a ha => hmem a (by simp [ha])) r
  exact hfold _ (fun i hi => List.mem_range.mp hi) _

theorem zip_replicate_true_filter (objs : List (SceneObject α)) :
    ((objs.zip (List.replicate objs.length true)).filter (fun p => p.2)).map
        (fun p => p.1) = objs := by
  induction objs with
  | nil => rfl
  | cons o t ih => simpa [List.replicate_succ] using ih

/-- With a single kind of object present, the pass retains every object. -/
theorem aliveObjects_same_kind (objs : List (SceneObject α)) (k : Bool)
    (hk : ∀ o ∈ objs, o.is_snowball = k) : aliveObjects objs = objs := by
  unfold aliveObjects
  rw [collisionPass_same_kind objs k hk]
  exact zip_replicate_true_filter objs

/-- Closed form of the collision pass on a two-object collection. -/
theorem collisionPass_pair (a b : SceneObject α) :
    collisionPass [a, b] =
      if (a.IsIntersected b && (a.is_snowball ^^ b.is_snowball)) = true then
        [false, false]
      else [true, true] := by
  have hexp : collisionPass [a, b]
      = passStep [a, b] (passStep [a, b] [true, true] 0) 1 := rfl
  rw [hexp]
  cases hc : (a.IsIntersected b && (a.is_snowball ^^ b.is_snowball)) with
  | true =>
    have h0 : passStep [a, b] [true, true] 0 = [false, false] := by
      simp [passStep, markStep, range'_len_one, hc]
    rw [h0, passStep_last _ _ 1 (by simp)]
    simp
  | false =>
    have h0 : passStep [a, b] [true, true] 0 = [true, true] := by
      simp [passStep, markStep, range'_len_one, hc]
    rw [h0, passStep_last _ _ 1 (by simp)]
    simp

/-- Scenario: enemy, projectile, enemy, with the projectile hitting both
enemies.  The projectile is marked by the pair (0, 1) but, being a
projectile, is still checked as first operand of (1, 2) and marks the second
enemy too. -/
theorem collisionPass_enemy_ball_enemy (x y z : SceneObject α)
    (hx : x.is_snowball = false) (hy : y.is_snowball = true)
    (hz : z.is_snowball = false)
    (hxy : x.IsIntersected y = true) (hyz : y.IsIntersected z = true) :
    collisionPass [x, y, z] = [false, false, false] := by
  have hexp : collisionPass [x, y, z]
      = passStep [x, y, z] (passStep [x, y, z]
          (passStep [x, y, z] [true, true, true] 0) 1) 2 := rfl
  rw [hexp]
  have h0 : passStep [x, y, z] [true, true, true] 0 = [false, false, true] := by
    simp [passStep, markStep, range'_len_two, hx, hy, hz, hxy]
  have h1 : passStep [x, y, z] [false, false, true] 1 = [false, false, false] := by
    simp [passStep, markStep, range'_len_one, hy, hz, hyz]
  rw [h0, h1, passStep_last _ _ 2 (by simp)]

/-- Scenario: projectile, enemy, projectile, with the first projectile
hitting the enemy and the enemy intersecting the second projectile.  The
enemy is marked by the pair (0, 1) and, being an enemy, is skipped as first
operand of (1, 2): the second projectile survives. -/
theorem collisionPass_ball_enemy_ball (x y z : SceneObject α)
    (hx : x.is_snowball = true) (hy : y.is_snowball = false)
    (hz : z.is_snowball = true)
    (hxy : x.IsIntersected y = true) :
    collisionPass [x, y, z] = [false, false, true] := by
  have hexp : collisionPass [x, y, z]
      = passStep [x, y, z] (passStep [x, y, z]
          (passStep [x, y, z] [true, true, true] 0) 1) 2 := rfl
  rw [hexp]
  have h0 : passStep [x, y, z] [true, true, true] 0 = [false, false, true] := by
    simp [passStep, markStep, range'_len_two, hx, hy, hz, hxy]
  have h1 : passStep [x, y, z] [false, false, true] 1 = [false, false, true] := by
    simp [passStep, markStep, range'_len_one, hy]
  rw [h0, h1, passStep_last _ _ 2 (by simp)]

/-- Scenario: projectile, projectile, enemy, with both projectiles hitting
the enemy.  The enemy is marked by the pair (0, 2) but can still be matched
as second operand of (1, 2), so the second projectile is marked as well. -/
theorem collisionPass_ball_ball_enemy (x y z : SceneObject α)
    (hx : x.is_snowball = true) (hy : y.is_snowball = true)
    (hz : z.is_snowball = false)
    (hxz : x.IsIntersected z = true) (hyz : y.IsIntersected z = true) :
    collisionPass [x, y, z] = [false, false, false] := by
  have hexp : collisionPass [x, y, z]
      = passStep [x, y, z] (passStep [x, y, z]
          (passStep [x, y, z] [true, true, true] 0) 1) 2 := rfl
  rw [hexp]
  have h0 : passStep [x, y, z] [true, true, true] 0 = [false, true, false] := by
    simp [passStep, markStep, range'_len_two, hx, hy, hz, hxz]
  have h1 : passStep [x, y, z] [false, true, false] 1 = [false, false, false] := by
    simp [passStep, markStep, range'_len_one, hy, hz, hyz]
  rw [h0, h1, passStep_last _ _ 2 (by simp)]

/-- Test fixture: a scene object with a given position, collider radius and
kind, an empty mesh, and no motion. -/
def testObj (p : Vec3 ℚ) (r : ℚ) (snow : Bool) : SceneObject ℚ :=
  { position := p, direction := ⟨0, 0, 0⟩, speed := 0, collider_radius := r,
    vertices := [], uvs := [], texture := 0, is_snowball := snow }

theorem testObj_intersect (p q : Vec3 ℚ) (r s : ℚ) (k1 k2 : Bool) :
    (testObj p r k1).IsIntersected (testObj q s k2) = lengthLt (p - q) (r + s) :=
  rfl

theorem testObj_snow (p : Vec3 ℚ) (r : ℚ) (k : Bool) :
    (testObj p r k).is_snowball = k := rfl

/-! ## Claim C1 -/

/-- C1 (counterexample).  The unrestricted "both marked iff exactly one is a
projectile" fails: in `[ball₁, enemy, ball₂]` with `ball₁` hitting the enemy
and `ball₂` intersecting only the (already marked) enemy, the pair (1, 2)
intersects with exactly one projectile, yet entity 2 is not marked: the final
`remains` vector is `[false, false, true]`. -/
theorem collision_pair_iff_cex :
    (testObj ⟨0, 0, 1⟩ 1 false).IsIntersected (testObj ⟨0, 0, 2⟩ 1 true) = true
    ∧ ((testObj ⟨0, 0, 1⟩ 1 false).is_snowball
        ^^ (testObj ⟨0, 0, 2⟩ 1 true).is_snowball) = true
    ∧ collisionPass [testObj ⟨0, 0, 0⟩ 1 true, testObj ⟨0, 0, 1⟩ 1 false,
        testObj ⟨0, 0, 2⟩ 1 true] = [false, false, true] := by
  refine ⟨?_, rfl, ?_⟩
  · rw [testObj_intersect]
    norm_num [lengthLt, Vec3.len2]
  · exact collisionPass_ball_enemy_ball _ _ _ rfl rfl rfl
      (by rw [testObj_intersect]; norm_num [lengthLt, Vec3.len2])

/-- C1 (amended).  The pair rule holds as stated for the pair actually
examined; globally: in a two-object collection, both objects are removed iff
they intersect and exactly one is a projectile, and in a collection whose
objects are all of one kind (all enemies, or all projectiles) the pass
removes nothing.  The unrestricted per-pair "iff" in a larger collection
fails because an already-marked enemy is skipped as first operand (see the
counterexample). -/
theorem collision_pass_pair_policy (a b : SceneObject ℚ) :
    (aliveObjects [a, b] = [] ↔
        (a.IsIntersected b = true ∧ (a.is_snowball ^^ b.is_snowball) = true))
    ∧ (∀ objs : List (SceneObject ℚ), (∀ o ∈ objs, o.is_snowball = false) →
        aliveObjects objs = objs)
    ∧ (∀ objs : List (SceneObject ℚ), (∀ o ∈ objs, o.is_snowball = true) →
        aliveObjects objs = objs) := by
  refine ⟨?_, fun objs hk => aliveObjects_same_kind objs false hk,
    fun objs hk => aliveObjects_same_kind objs true hk⟩
  unfold aliveObjects
  rw [collisionPass_pair a b]
  cases hc : (a.IsIntersected b && (a.is_snowball ^^ b.is_snowball)) with
  | true =>
    rw [if_pos rfl]
    refine iff_of_true (by simp) ?_
    simp only [Bool.and_eq_true] at hc
    exact hc
  | false =>
    rw [if_neg (by simp)]
    refine iff_of_false (by simp) ?_
    rintro ⟨h1, h2⟩
    rw [h1, h2] at hc
    simp at hc

/-- C1 (witness for the amended claim). -/
theorem collision_pass_pair_policy_w :
    aliveObjects [testObj ⟨0, 0, 0⟩ 1 true, testObj ⟨0, 0, 1⟩ 1 false] = []
    ∧ aliveObjects [testObj ⟨0, 0, 0⟩ 1 false, testObj ⟨0, 0, 1⟩ 1 false]
        = [testObj ⟨0, 0, 0⟩ 1 false, testObj ⟨0, 0, 1⟩ 1 false] := by
  constructor
  · exact (collision_pass_pair_policy _ _).1.mpr
      ⟨by rw [testObj_intersect]; norm_num [lengthLt, Vec3.len2], rfl⟩
  · refine (collision_pass_pair_policy (testObj ⟨0, 0, 0⟩ 1 false)
      (testObj ⟨0, 0, 1⟩ 1 false)).2.1 _ ?_
    intro o ho
    simp only [List.mem_cons, List.mem_singleton, List.not_mem_nil, or_false] at ho
    rcases ho with rfl | rfl <;> rfl

/-! ## Claim C6 -/

/-- C6.  An entity already marked for removal is still checked as first
operand of further pairs iff it is a projectile.  Behaviorally: (1) a
projectile marked by an earlier pair still marks a later enemy it hits
(pass over `[enemy, ball, enemy]` marks all three); (2) an enemy marked by
an earlier pair is skipped as first operand, so a later projectile whose
only intersection is that enemy survives (pass over `[ball, enemy, ball]`
yields `[false, false, true]`); (3) a marked enemy can still be matched as
second operand, marking a later projectile (pass over `[ball, ball, enemy]`
marks all three). -/
theorem collision_marked_skip_asymmetry :
    (∀ x y z : SceneObject ℚ, x.is_snowball = false → y.is_snowball = true →
      z.is_snowball = false → x.IsIntersected y = true →
      y.IsIntersected z = true →
      collisionPass [x, y, z] = [false, false, false])
    ∧ (∀ x y z : SceneObject ℚ, x.is_snowball = true → y.is_snowball = false →
      z.is_snowball = true → x.IsIntersected y = true →
      collisionPass [x, y, z] = [false, false, true])
    ∧ (∀ x y z : SceneObject ℚ, x.is_snowball = true → y.is_snowball = true →
      z.is_snowball = false → x.IsIntersected z = true →
      y.IsIntersected z = true →
      collisionPass [x, y, z] = [false, false, false]) :=
  ⟨fun x y z hx hy hz hxy hyz =>
      collisionPass_enemy_ball_enemy x y z hx hy hz hxy hyz,
   fun x y z hx hy hz hxy =>
      collisionPass_ball_enemy_ball x y z hx hy hz hxy,
   fun x y z hx hy hz hxz hyz =>
      collisionPass_ball_ball_enemy x y z hx hy hz hxz hyz⟩

/-- C6 (witness). -/
theorem collision_marked_skip_asymmetry_w :
    collisionPass [testObj ⟨0, 0, 0⟩ 1 false, testObj ⟨0, 0, 1⟩ 1 true,
        testObj ⟨0, 0, 2⟩ 1 false] = [false, false, false]
    ∧ collisionPass [testObj ⟨0, 0, 4⟩ 1 true, testObj ⟨0, 0, 5⟩ 1 false,
        testObj ⟨0, 0, 6⟩ 1 true] = [false, false, true]
    ∧ collisionPass [testObj ⟨0, 0, 8⟩ 1 true, testObj ⟨0, 0, 10⟩ 1 true,
        testObj ⟨0, 0, 9⟩ 1 false] = [false, false, false] := by
  refine ⟨collision_marked_skip_asymmetry.1 _ _ _ rfl rfl rfl ?_ ?_,
    collision_marked_skip_asymmetry.2.1 _ _ _ rfl rfl rfl ?_,
    collision_marked_skip_asymmetry.2.2 _ _ _ rfl rfl rfl ?_ ?_⟩ <;>
    (rw [testObj_intersect]; norm_num [lengthLt, Vec3.len2])

/-! ## Claim C2 -/

/-- C2.  For entities with nonnegative collider radii, `IsIntersected`
returns true iff the Euclidean distance between the centers (the square root
of the squared norm of the difference, as `glm::length` computes it) is
strictly less than the sum of the radii; exactly touching spheres (distance
equal to the sum) do not intersect. -/
theorem IsIntersected_iff_dist_lt (a b : SceneObject ℝ)
    (h1 : 0 ≤ a.collider_radius) (h2 : 0 ≤ b.collider_radius) :
    a.IsIntersected b = true ↔
      Real.sqrt (Vec3.len2 (a.position - b.position))
        < a.collider_radius + b.collider_radius := by
  exact lengthLt_iff_sqrt_lt _ _

/-- C2 (witness): two unit spheres whose centers are 1 apart intersect. -/
theorem IsIntersected_iff_dist_lt_w :
    (0:ℝ) ≤ 1 ∧
    ({ position := ⟨0, 0, 0⟩, direction := ⟨0, 0, 0⟩, speed := 0,
       collider_radius := 1, vertices := [], uvs := [], texture := 0,
       is_snowball := true : SceneObject ℝ }.IsIntersected
     { position := ⟨0, 0, 1⟩, direction := ⟨0, 0, 0⟩, speed := 0,
       collider_radius := 1, vertices := [], uvs := [], texture := 0,
       is_snowball := false } = true ↔
      Real.sqrt (Vec3.len2 ((⟨0, 0, 0⟩ : Vec3 ℝ) - ⟨0, 0, 1⟩)) < 1 + 1) :=
  ⟨by norm_num,
   IsIntersected_iff_dist_lt _ _ (by norm_num) (by norm_num)⟩

/-! ## Claim C9 -/

/-- C9.  The intersection test is symmetric: `a.IsIntersected b` always
equals `b.IsIntersected a` (the squared distance and the radius sum are both
symmetric in the two entities). -/
theorem IsIntersected_symm {α : Type} [LinearOrderedField α]
    (a b : SceneObject α) : a.IsIntersected b = b.IsIntersected a := by
  unfold SceneObject.IsIntersected lengthLt
  have hlen : (a.position - b.position).len2 = (b.position - a.position).len2 := by
    unfold Vec3.len2
    simp only [Vec3.sub_x, Vec3.sub_y, Vec3.sub_z]
    ring
  rw [hlen, add_comm a.collider_radius b.collider_radius]

/-! ## Claim C10 -/

/-- C10.  `Shift` adds the step to the position and changes nothing else:
direction, speed, collider radius, vertex data, UV data, texture handle and
the projectile flag are untouched — in particular a projectile's
position-baked mesh vertices are never updated by motion. -/
theorem Shift_only_position {α : Type} [LinearOrderedField α]
    (o : SceneObject α) (step : Vec3 α) :
    (o.Shift step).position = o.position + step
    ∧ (o.Shift step).direction = o.direction
    ∧ (o.Shift step).speed = o.speed
    ∧ (o.Shift step).collider_radius = o.collider_radius
    ∧ (o.Shift step).vertices = o.vertices
    ∧ (o.Shift step).uvs = o.uvs
    ∧ (o.Shift step).texture = o.texture
    ∧ (o.Shift step).is_snowball = o.is_snowball :=
  ⟨rfl, rfl, rfl, rfl, rfl, rfl, rfl, rfl⟩

/-! ## The sphere mesh generator `createSphere`

The source first builds a `(stackCount+1) × (sectorCount+1)` grid of
vertices / normals / UVs and then, for each stack `i` and sector `j`, emits
the triangle `k1, k2, k1+1` unless `i == 0` and the triangle `k1+1, k2, k2+1`
unless `i == stackCount-1`, reading the grid by index.  `cosf` / `sinf` are
the C trigonometric functions, abstracted as function parameters. -/

/-- Grid vertex `(i, j)`: the sphere point translated by `position`
(`translation_mat * vec4(x, y, z, 1)`). -/
def sphereGridVertex (cosf sinf : α → α) (radius : α)
    (sectorCount stackCount : ℕ) (position : Vec3 α) (i j : ℕ) : Vec3 α :=
  let stackAngle := PI / 2 - (i : α) * (PI / (stackCount : α))
  let xy := radius * cosf stackAngle
  let z := radius * sinf stackAngle
  let sectorAngle := (j : α) * (2 * PI / (sectorCount : α))
  ⟨position.x + xy * cosf sectorAngle, position.y + xy * sinf sectorAngle,
   position.z + z⟩

/-- Grid normal `(i, j)`: the unit sphere point (`(x,y,z) * lengthInv`);
multiplying by the translation matrix with fourth component 0 leaves it
unchanged. -/
def sphereGridNormal (cosf sinf : α → α) (radius : α)
    (sectorCount stackCount : ℕ) (i j : ℕ) : Vec3 α :=
  let stackAngle := PI / 2 - (i : α) * (PI / (stackCount : α))
  let xy := radius * cosf stackAngle
  let z := radius * sinf stackAngle
  let sectorAngle := (j : α) * (2 * PI / (sectorCount : α))
  let lengthInv := 1 / radius
  ⟨xy * cosf sectorAngle * lengthInv, xy * sinf sectorAngle * lengthInv,
   z * lengthInv⟩

/-- Grid UV `(i, j)`: `(j / sectorCount, i / stackCount)`. -/
def sphereGridUV (sectorCount stackCount : ℕ) (i j : ℕ) : α × α :=
  ((j : α) / (sectorCount : α), (i : α) / (stackCount : α))

/-- Triangle indices emitted for stack `i`, sector `j`:
`k1 = i*(sectorCount+1) + j`, `k2 = k1 + sectorCount + 1`. -/
def sphereQuadTriangles (sectorCount stackCount i j : ℕ) : List ℕ :=
  let k1 := i * (sectorCount + 1) + j
  let k2 := k1 + sectorCount + 1
  (if i ≠ 0 then [k1, k2, k1 + 1] else [])
    ++ (if i ≠ stackCount - 1 then [k1 + 1, k2, k2 + 1] else [])

/-- All triangle-list indices emitted by the double emission loop, in
order. -/
def sphereTriangleIndices (sectorCount stackCount : ℕ) : List ℕ :=
  (List.range stackCount).flatMap (fun i =>
    (List.range sectorCount).flatMap (sphereQuadTriangles sectorCount stackCount i))

/-- Embeds `createSphere`: the triangle-list vertices, normals and UVs appended to
the three output vectors. -/
def createSphere (cosf sinf : α → α) (radius : α)
    (sectorCount stackCount : ℕ) (position : Vec3 α) :
    List (Vec3 α) × List (Vec3 α) × List (α × α) :=
  let vertices := (List.range (stackCount + 1)).flatMap (fun i =>
    (List.range (sectorCount + 1)).map
      (sphereGridVertex cosf sinf radius sectorCount stackCount position i))
  let normals := (List.range (stackCount + 1)).flatMap (fun i =>
    (List.range (sectorCount + 1)).map
      (sphereGridNormal cosf sinf radius sectorCount stackCount i))
  let uvs := (List.range (stackCount + 1)).flatMap (fun i =>
    (List.range (sectorCount + 1)).map (sphereGridUV sectorCount stackCount i))
  let idx := sphereTriangleIndices sectorCount stackCount
  (idx.map (fun k => vertices.getD k ⟨0, 0, 0⟩),
   idx.map (fun k => normals.getD k ⟨0, 0, 0⟩),
   idx.map (fun k => uvs.getD k (0, 0)))

theorem sphereQuadTriangles_length (sectorCount stackCount i j : ℕ) :
    (sphereQuadTriangles sectorCount stackCount i j).length
      = (if i ≠ 0 then 3 else 0) + (if i ≠ stackCount - 1 then 3 else 0) := by
  unfold sphereQuadTriangles
  rw [List.length_append]
  congr 1 <;> split <;> rfl

theorem sum_map_ite_zero (c : ℕ) :
    ∀ n : ℕ, ((List.range n).map (fun i => if i ≠ 0 then c else 0)).sum
      = c * (n - 1) := by
  intro n
  induction n with
  | zero => rfl
  | succ m ih =>
    rw [List.range_succ, List.map_append, List.sum_append]
    rcases m with _ | m'
    · simp
    · simp only [ih]
      have hne : (m' + 1 : ℕ) ≠ 0 := by omega
      simp only [List.map_cons, List.map_nil, List.sum_cons, List.sum_nil,
        if_pos hne]
      have h1 : m' + 1 + 1 - 1 = (m' + 1 - 1) + 1 := by omega
      rw [h1, Nat.mul_succ]
      omega

theorem sum_map_ite_lt (c : ℕ) :
    ∀ n t : ℕ, n ≤ t →
      ((List.range n).map (fun i => if i ≠ t then c else 0)).sum = c * n := by
  intro n
  induction n with
  | zero => intro t _; rfl
  | succ m ih =>
    intro t ht
    rw [List.range_succ, List.map_append, List.sum_append]
    have hne : m ≠ t := by omega
    rw [ih t (by omega)]
    simp only [List.map_cons, List.map_nil, List.sum_cons, List.sum_nil,
      if_pos hne]
    simp [Nat.mul_succ]

theorem sum_map_ite_last (c : ℕ) (n : ℕ) :
    ((List.range n).map (fun i => if i ≠ n - 1 then c else 0)).sum
      = c * (n - 1) := by
  rcases n with _ | m
  · rfl
  · rw [List.range_succ, List.map_append, List.sum_append]
    have h1 : m + 1 - 1 = m := by omega
    simp only [h1]
    rw [sum_map_ite_lt c m m (le_refl m)]
    simp

theorem sum_map_add_distrib (f g : ℕ → ℕ) :
    ∀ l : List ℕ, (l.map (fun i => f i + g i)).sum
      = (l.map f).sum + (l.map g).sum := by
  intro l
  induction l with
  | nil => rfl
  | cons a l ih =>
    simp only [List.map_cons, List.sum_cons, ih]
    omega

theorem sphereTriangleIndices_length (sectorCount stackCount : ℕ)
    (hst : 1 ≤ stackCount) :
    (sphereTriangleIndices sectorCount stackCount).length
      = stackCount * sectorCount * 6 - 2 * sectorCount * 3 := by
  unfold sphereTriangleIndices
  rw [List.length_flatMap]
  have hinner : ∀ i : ℕ,
      (List.length ∘ fun i =>
        (List.range sectorCount).flatMap
          (sphereQuadTriangles sectorCount stackCount i)) i
      = sectorCount * ((if i ≠ 0 then 3 else 0)
          + (if i ≠ stackCount - 1 then 3 else 0)) := by
    intro i
    show ((List.range sectorCount).flatMap
        (sphereQuadTriangles sectorCount stackCount i)).length = _
    rw [List.length_flatMap]
    have hmap : (List.range sectorCount).map
        (List.length ∘ sphereQuadTriangles sectorCount stackCount i)
        = (List.range sectorCount).map (fun _ => (if i ≠ 0 then 3 else 0)
            + (if i ≠ stackCount - 1 then 3 else 0)) := by
      apply List.map_congr_left
      intro j _
      exact sphereQuadTriangles_length sectorCount stackCount i j
    rw [hmap, List.map_const', List.sum_replicate, smul_eq_mul,
      List.length_range]
  have hmap2 : (List.range stackCount).map
      (List.length ∘ fun i => (List.range sectorCount).flatMap
        (sphereQuadTriangles sectorCount stackCount i))
      = (List.range stackCount).map
        (fun i => sectorCount * ((if i ≠ 0 then 3 else 0)
          + (if i ≠ stackCount - 1 then 3 else 0))) := by
    apply List.map_congr_left
    intro i _
    exact hinner i
  rw [hmap2, List.sum_map_mul_left,
    sum_map_add_distrib (fun i => if i ≠ 0 then 3 else 0)
      (fun i => if i ≠ stackCount - 1 then 3 else 0),
    sum_map_ite_zero, sum_map_ite_last]
  rcases stackCount with _ | m
  · omega
  · have h1 : m + 1 - 1 = m := by omega
    rw [h1]
    have h2 : sectorCount * (3 * m + 3 * m) = 6 * (sectorCount * m) := by ring
    have h3 : (m + 1) * sectorCount * 6 = 6 * (sectorCount * m) + 6 * sectorCount := by
      ring
    have h4 : 2 * sectorCount * 3 = 6 * sectorCount := by ring
    rw [h2, h3, h4, Nat.add_sub_cancel]

/-! ## Claim C4 -/

/-- C4.  For `sectorCount ≥ 1` and `stackCount ≥ 1` the sphere generator
emits exactly `stackCount * sectorCount * 6 - 2 * sectorCount * 3`
triangle-list vertices (the two pole stacks emit one triangle per sector
instead of two), and the same number of normals and UVs. -/
theorem createSphere_counts (cosf sinf : α → α) (radius : α)
    (sectorCount stackCount : ℕ) (position : Vec3 α)
    (hsec : 1 ≤ sectorCount) (hst : 1 ≤ stackCount) :
    (createSphere cosf sinf radius sectorCount stackCount position).1.length
      = stackCount * sectorCount * 6 - 2 * sectorCount * 3
    ∧ (createSphere cosf sinf radius sectorCount stackCount position).2.1.length
      = stackCount * sectorCount * 6 - 2 * sectorCount * 3
    ∧ (createSphere cosf sinf radius sectorCount stackCount position).2.2.length
      = stackCount * sectorCount * 6 - 2 * sectorCount * 3 := by
  unfold createSphere
  simp only [List.length_map]
  exact ⟨sphereTriangleIndices_length sectorCount stackCount hst,
    sphereTriangleIndices_length sectorCount stackCount hst,
    sphereTriangleIndices_length sectorCount stackCount hst⟩

/-- C4 (witness): a 4-sector, 3-stack sphere has
`3*4*6 - 2*4*3 = 48` vertices, normals and UVs. -/
theorem createSphere_counts_w :
    (createSphere (id : ℚ → ℚ) id 1 4 3 ⟨0, 0, 0⟩).1.length
        = 3 * 4 * 6 - 2 * 4 * 3
    ∧ (createSphere (id : ℚ → ℚ) id 1 4 3 ⟨0, 0, 0⟩).2.1.length
        = 3 * 4 * 6 - 2 * 4 * 3
    ∧ (createSphere (id : ℚ → ℚ) id 1 4 3 ⟨0, 0, 0⟩).2.2.length
        = 3 * 4 * 6 - 2 * 4 * 3 :=
  createSphere_counts id id 1 4 3 ⟨0, 0, 0⟩ (by omega) (by omega)

/-! ## The camera (`class Camera`)

`Camera::CameraDirection` and `Camera::CameraRight` computed from the two
angles; `cosf` / `sinf` abstract the C trigonometric functions and are
instantiated with `Real.cos` / `Real.sin` in the claims.  Note
`Camera::PI = 3.1416`, the same constant as the global `PI`. -/

/-- Embeds `Camera::CameraDirection`. -/
def CameraDirection (cosf sinf : α → α) (horizontal_angle vertical_angle : α) :
    Vec3 α :=
  ⟨cosf vertical_angle * sinf horizontal_angle,
   sinf vertical_angle,
   cosf vertical_angle * cosf horizontal_angle⟩

/-- Embeds `Camera::CameraRight`. -/
def CameraRight (cosf sinf : α → α) (horizontal_angle : α) : Vec3 α :=
  ⟨sinf (horizontal_angle - PI / 2), 0, cosf (horizontal_angle - PI / 2)⟩

/-- Embeds `Camera::CameraUp = cross(CameraRight(), CameraDirection())`. -/
def CameraUp (cosf sinf : α → α) (horizontal_angle vertical_angle : α) :
    Vec3 α :=
  Vec3.cross (CameraRight cosf sinf horizontal_angle)
    (CameraDirection cosf sinf horizontal_angle vertical_angle)

/-- Closed form of the direction-right dot product: the trigonometric
identity collapses it to `cos v * cos (PI / 2)` — where `PI = 3.1416` is the
code's constant, so `cos (PI / 2)` is tiny but nonzero. -/
theorem camera_dot_form (h v : ℝ) :
    Vec3.dot (CameraDirection Real.cos Real.sin h v)
      (CameraRight Real.cos Real.sin h) = Real.cos v * Real.cos (PI / 2) := by
  unfold CameraDirection CameraRight Vec3.dot
  have hcs : Real.cos h * Real.cos (h - PI / 2)
      + Real.sin h * Real.sin (h - PI / 2) = Real.cos (PI / 2) := by
    rw [← Real.cos_sub]
    congr 1
    ring
  linear_combination Real.cos v * hcs

/-- The code's `PI / 2 = 1.5708` lies strictly between `π / 2` and `π`, so
its cosine is strictly negative. -/
theorem cos_code_half_pi_neg : Real.cos ((PI : ℝ) / 2) < 0 := by
  apply Real.cos_neg_of_pi_div_two_lt_of_lt
  · have hlt := Real.pi_lt_d6
    rw [PI]
    norm_num
    linarith
  · have hgt := Real.pi_gt_d6
    rw [PI]
    norm_num
    linarith

/-! ## Claim C7 -/

/-- C7 (counterexample).  At angles `(0, 0)` the dot product of the view
direction and the right vector is `cos 1.5708 < 0`, not `0`: the camera's
basis vectors are not exactly orthogonal because `Camera::PI = 3.1416` is
not `π`. -/
theorem camera_dot_nonzero_cex :
    Vec3.dot (CameraDirection Real.cos Real.sin 0 0)
      (CameraRight Real.cos Real.sin 0) ≠ 0 := by
  rw [camera_dot_form 0 0, Real.cos_zero, one_mul]
  exact ne_of_lt cos_code_half_pi_neg

/-- C7 (amended).  For every angle pair, `dot(Direction(), Right())` equals
`cos(verticalAngle) * cos(1.5708)`: it is independent of the horizontal
angle and approximately — but, because the code uses `PI = 3.1416` instead
of `π`, not exactly — zero. -/
theorem camera_dir_right_dot (h v : ℝ) :
    Vec3.dot (CameraDirection Real.cos Real.sin h v)
      (CameraRight Real.cos Real.sin h) = Real.cos v * Real.cos (PI / 2) :=
  camera_dot_form h v

/-! ## The player (`class Player : public Camera`) and projectile creation

`Player::CreateSnowBall` reads the cursor, recenters it, updates the two
camera angles by `mouse_speed * (center - cursor)`, and, when the left mouse
button is pressed and `glfwGetTime() > next_creation_time_`, records
`next_creation_time_ = now + timedelay_` and returns a new `SnowBall` at
`position_ + camera_direction * 1.5f` traveling along `camera_direction`.
The externally read inputs (cursor position, button state, clock) are
passed in as a `FireInput`. -/

/-- Texture handle token for `ice_texture.bmp` (the handle itself comes from
the external texture loader). -/
def iceTexture : Nat := 1

/-- Texture handle token for `enemy_texture.bmp`. -/
def enemyTexture : Nat := 2

/-- Embeds `SnowBall` with the source's default arguments: exclusion radius
`0.75f`, 15 sectors, 15 stacks, speed `13.0f`; the mesh is generated by
`createSphere` centered at the spawn position (so world position is baked
into the vertex data), and the generator's normals are discarded. -/
def SnowBall (cosf sinf : α → α) (position direction : Vec3 α) :
    SceneObject α :=
  { position := position, direction := direction, speed := 13,
    collider_radius := 3 / 4,
    vertices := (createSphere cosf sinf (3 / 4) 15 15 position).1,
    uvs := (createSphere cosf sinf (3 / 4) 15 15 position).2.2,
    texture := iceTexture, is_snowball := true }

/-- The externally supplied per-tick inputs of `Player::CreateSnowBall`:
the polled cursor position, the left-button state, and `glfwGetTime()`. -/
structure FireInput (α : Type) where
  xpos : α
  ypos : α
  mouse_pressed : Bool
  now : α
deriving DecidableEq

/-- Embeds `class Player`: camera angles and fov (inherited from `Camera`) plus
position, collider radius, mouse sensitivity, re-fire delay and the stored
next allowed fire time. -/
structure Player (α : Type) where
  horizontal_angle : α
  vertical_angle : α
  fov : α
  position : Vec3 α
  collider_radius : α
  mouse_speed : α
  timedelay : α
  next_creation_time : α
deriving DecidableEq

/-- Embeds `Player::CreateSnowBall`.  Returns the created projectile (if any) and
the player's updated state. -/
def Player.CreateSnowBall (cosf sinf : α → α) (p : Player α)
    (inp : FireInput α) : Option (SceneObject α) × Player α :=
  let h := p.horizontal_angle + p.mouse_speed * (1024 / 2 - inp.xpos)
  let v := p.vertical_angle + p.mouse_speed * (768 / 2 - inp.ypos)
  let camera_direction := CameraDirection cosf sinf h v
  let p1 : Player α := { p with horizontal_angle := h, vertical_angle := v }
  if inp.mouse_pressed = true then
    if p.next_creation_time < inp.now then
      (some (SnowBall cosf sinf
          (p.position + camera_direction.scale (3 / 2)) camera_direction),
       { p1 with next_creation_time := inp.now + p.timedelay })
    else (none, p1)
  else (none, p1)

/-! ## Claim C3 -/

/-- C3 (counterexample).  The fire gate is strict: with
`next_creation_time = 1` and `timedelay = 1/5` (so the last fire was at time
`4/5`), at `now = 1` the elapsed time since the last fire is exactly the
delay — "at least `timedelay`" holds — and the button is pressed, yet
`CreateSnowBall` returns nothing, because the code requires
`glfwGetTime() > next_creation_time_` strictly. -/
theorem CreateSnowBall_boundary_cex :
    ({ xpos := 512, ypos := 384, mouse_pressed := true, now := 1 } :
        FireInput ℚ).mouse_pressed = true
    ∧ (({ xpos := 512, ypos := 384, mouse_pressed := true, now := 1 } :
          FireInput ℚ).now
        - (({ horizontal_angle := 0, vertical_angle := 0, fov := 45,
              position := ⟨0, 0, 0⟩, collider_radius := 1,
              mouse_speed := 1 / 200, timedelay := 1 / 5,
              next_creation_time := 1 } : Player ℚ).next_creation_time
            - (1 / 5 : ℚ))
        ≥ (1 / 5 : ℚ))
    ∧ (Player.CreateSnowBall (id : ℚ → ℚ) id
        { horizontal_angle := 0, vertical_angle := 0, fov := 45,
          position := ⟨0, 0, 0⟩, collider_radius := 1, mouse_speed := 1 / 200,
          timedelay := 1 / 5, next_creation_time := 1 }
        { xpos := 512, ypos := 384, mouse_pressed := true, now := 1 }).1
      = none := by
  refine ⟨rfl, by norm_num, ?_⟩
  norm_num [Player.CreateSnowBall]

/-- C3 (amended).  On a tick, `CreateSnowBall` creates and returns one
projectile — at `position + Direction() * 1.5`, traveling along
`Direction()` computed from the freshly updated angles — iff the fire
button is pressed and the current time is *strictly* greater than the
recorded next-fire time (i.e. the elapsed time since the last fire strictly
exceeds `timedelay`, not "at least `timedelay`"); it then records the next
fire time as `now + timedelay`.  Otherwise it returns nothing and only the
angles change.  Consequently two consecutive successful fires are always
strictly more than `timedelay` apart. -/
theorem CreateSnowBall_policy (cosf sinf : α → α) (p : Player α)
    (inp : FireInput α) :
    (inp.mouse_pressed = true → p.next_creation_time < inp.now →
      Player.CreateSnowBall cosf sinf p inp =
        (some (SnowBall cosf sinf
            (p.position + (CameraDirection cosf sinf
                (p.horizontal_angle + p.mouse_speed * (1024 / 2 - inp.xpos))
                (p.vertical_angle + p.mouse_speed * (768 / 2 - inp.ypos))).scale
              (3 / 2))
            (CameraDirection cosf sinf
                (p.horizontal_angle + p.mouse_speed * (1024 / 2 - inp.xpos))
                (p.vertical_angle + p.mouse_speed * (768 / 2 - inp.ypos)))),
         { p with
            horizontal_angle :=
              p.horizontal_angle + p.mouse_speed * (1024 / 2 - inp.xpos),
            vertical_angle :=
              p.vertical_angle + p.mouse_speed * (768 / 2 - inp.ypos),
            next_creation_time := inp.now + p.timedelay }))
    ∧ (¬(inp.mouse_pressed = true ∧ p.next_creation_time < inp.now) →
      Player.CreateSnowBall cosf sinf p inp =
        (none,
         { p with
            horizontal_angle :=
              p.horizontal_angle + p.mouse_speed * (1024 / 2 - inp.xpos),
            vertical_angle :=
              p.vertical_angle + p.mouse_speed * (768 / 2 - inp.ypos) }))
    ∧ (∀ (inp2 : FireInput α) (s1 : SceneObject α) (p2 : Player α),
        Player.CreateSnowBall cosf sinf p inp = (some s1, p2) →
        (Player.CreateSnowBall cosf sinf p2 inp2).1.isSome = true →
        inp.now + p.timedelay < inp2.now) := by
  have ha : inp.mouse_pressed = true → p.next_creation_time < inp.now →
      Player.CreateSnowBall cosf sinf p inp =
        (some (SnowBall cosf sinf
            (p.position + (CameraDirection cosf sinf
                (p.horizontal_angle + p.mouse_speed * (1024 / 2 - inp.xpos))
                (p.vertical_angle + p.mouse_speed * (768 / 2 - inp.ypos))).scale
              (3 / 2))
            (CameraDirection cosf sinf
                (p.horizontal_angle + p.mouse_speed * (1024 / 2 - inp.xpos))
                (p.vertical_angle + p.mouse_speed * (768 / 2 - inp.ypos)))),
         { p with
            horizontal_angle :=
              p.horizontal_angle + p.mouse_speed * (1024 / 2 - inp.xpos),
            vertical_angle :=
              p.vertical_angle + p.mouse_speed * (768 / 2 - inp.ypos),
            next_creation_time := inp.now + p.timedelay }) := by
    intro h1 h2
    unfold Player.CreateSnowBall
    rw [if_pos h1, if_pos h2]
  have hb : ¬(inp.mouse_pressed = true ∧ p.next_creation_time < inp.now) →
      Player.CreateSnowBall cosf sinf p inp =
        (none,
         { p with
            horizontal_angle :=
              p.horizontal_angle + p.mouse_speed * (1024 / 2 - inp.xpos),
            vertical_angle :=
              p.vertical_angle + p.mouse_speed * (768 / 2 - inp.ypos) }) := by
    intro hno
    unfold Player.CreateSnowBall
    by_cases h1 : inp.mouse_pressed = true
    · have h2 : ¬ p.next_creation_time < inp.now := fun h2 => hno ⟨h1, h2⟩
      rw [if_pos h1, if_neg h2]
    · rw [if_neg h1]
  refine ⟨ha, hb, ?_⟩
  intro inp2 s1 p2 hfire hsome
  by_cases h1 : inp.mouse_pressed = true
  · by_cases h2 : p.next_creation_time < inp.now
    · rw [ha h1 h2] at hfire
      have hp2 : p2 = { p with
          horizontal_angle :=
            p.horizontal_angle + p.mouse_speed * (1024 / 2 - inp.xpos),
          vertical_angle :=
            p.vertical_angle + p.mouse_speed * (768 / 2 - inp.ypos),
          next_creation_time := inp.now + p.timedelay } :=
        ((Prod.ext_iff.mp hfire).2).symm
      have hnext : p2.next_creation_time = inp.now + p.timedelay := by
        rw [hp2]
      unfold Player.CreateSnowBall at hsome
      by_cases h3 : inp2.mouse_pressed = true
      · by_cases h4 : p2.next_creation_time < inp2.now
        · rw [← hnext]
          exact h4
        · rw [if_pos h3, if_neg h4] at hsome
          simp at hsome
      · rw [if_neg h3] at hsome
        simp at hsome
    · rw [hb (fun h => h2 h.2)] at hfire
      simp at hfire
  · rw [hb (fun h => h1 h.1)] at hfire
    simp at hfire

/-- C3 (witness for the amended claim): with the fire button pressed at
`now = 2` strictly past `next_creation_time = 1`, one projectile is created
and the next fire time becomes `2 + 1/5`. -/
theorem CreateSnowBall_policy_w :
    (Player.CreateSnowBall (id : ℚ → ℚ) id
        { horizontal_angle := 0, vertical_angle := 0, fov := 45,
          position := ⟨0, 0, 0⟩, collider_radius := 1, mouse_speed := 1 / 200,
          timedelay := 1 / 5, next_creation_time := 1 }
        { xpos := 512, ypos := 384, mouse_pressed := true, now := 2 }).1.isSome
      = true
    ∧ (Player.CreateSnowBall (id : ℚ → ℚ) id
        { horizontal_angle := 0, vertical_angle := 0, fov := 45,
          position := ⟨0, 0, 0⟩, collider_radius := 1, mouse_speed := 1 / 200,
          timedelay := 1 / 5, next_creation_time := 1 }
        { xpos := 512, ypos := 384, mouse_pressed := true, now := 2 }).2.next_creation_time
      = 2 + 1 / 5 := by
  have h := (CreateSnowBall_policy (id : ℚ → ℚ) id
    { horizontal_angle := 0, vertical_angle := 0, fov := 45,
      position := ⟨0, 0, 0⟩, collider_radius := 1, mouse_speed := 1 / 200,
      timedelay := 1 / 5, next_creation_time := 1 }
    { xpos := 512, ypos := 384, mouse_pressed := true, now := 2 }).1
    rfl (by norm_num)
  rw [h]
  exact ⟨rfl, rfl⟩

/-! ## The enemy spawner (`class EnemyCreator`)

`EnemyCreator::CreateEnemy` returns nothing while
`glfwGetTime() <= next_creation_time_`; otherwise it records
`next_creation_time_ = now + timedelay_`, draws a rotation angle, two axis
angles, a planar position angle, a radius and a size from its uniform
distributions, and constructs one `CubeEnemy` at
`position + radius * (sin angle, 0, cos angle)`.  The random draws are
passed in as a `SpawnDraws` record (the `mt19937` stream is external
state); the `uniform_real_distribution` supports are expressed as
hypotheses where a claim needs them.  `CubeEnemy` loads `cube.obj` and
bakes a scale-then-rotate transform into its vertices; both the asset and
`glm::rotate` are external collaborators, so the transformed mesh is taken
as a parameter, while the in-repo logic `collider_radius_ = 2 * scale_coef`
(base radius 2 scaled by the size) is kept. -/

/-- One tick's worth of draws from the spawner's random distributions, in
the order the source draws them. -/
structure SpawnDraws (α : Type) where
  angle_rotation : α
  phi : α
  theta : α
  angle_position : α
  radius : α
  size : α
deriving DecidableEq

/-- Embeds `class EnemyCreator`: spawn delay, stored next allowed spawn time, and
the distribution bounds (constructor defaults `3.0f`, `5.0f`, `50.0f`,
`0.5f`, `4.0f`). -/
structure EnemyCreator (α : Type) where
  timedelay : α
  next_creation_time : α
  min_radius : α
  max_radius : α
  min_size : α
  max_size : α
deriving DecidableEq

/-- Embeds `class CubeEnemy`: stationary (zero direction, zero speed), base
collider radius 2 scaled by `scale_coef`, enemy texture, externally
produced mesh. -/
def CubeEnemy (position : Vec3 α) (scale_coef : α)
    (mesh_vertices : List (Vec3 α)) (mesh_uvs : List (α × α)) :
    SceneObject α :=
  { position := position, direction := ⟨0, 0, 0⟩, speed := 0,
    collider_radius := 2 * scale_coef, vertices := mesh_vertices,
    uvs := mesh_uvs, texture := enemyTexture, is_snowball := false }

/-- Embeds `EnemyCreator::CreateEnemy`.  Returns the created enemy (if any) and
the spawner's updated state. -/
def EnemyCreator.CreateEnemy (cosf sinf : α → α) (ec : EnemyCreator α)
    (position : Vec3 α) (now : α) (draws : SpawnDraws α)
    (cube_vertices : List (Vec3 α)) (cube_uvs : List (α × α)) :
    Option (SceneObject α) × EnemyCreator α :=
  if now ≤ ec.next_creation_time then (none, ec)
  else
    let direction : Vec3 α :=
      ⟨sinf draws.angle_position, 0, cosf draws.angle_position⟩
    let new_position := position + direction.scale draws.radius
    (some (CubeEnemy new_position draws.size cube_vertices cube_uvs),
     { ec with next_creation_time := now + ec.timedelay })

theorem add_mk (a b c d e f : α) :
    (⟨a, b, c⟩ : Vec3 α) + ⟨d, e, f⟩ = ⟨a + d, b + e, c + f⟩ := rfl

theorem scale_mk (a b c d : α) :
    (⟨a, b, c⟩ : Vec3 α).scale d = ⟨a * d, b * d, c * d⟩ := rfl

/-! ## Claim C5 -/

/-- C5.  If the elapsed time since the last spawn (`now` minus the stored
next time less the delay) is smaller than the delay, the spawner produces
nothing; and whenever it produces an enemy, the enemy sits at
`position + radius * (sin angle, 0, cos angle)` for the drawn planar angle
and drawn radius — in particular its y-coordinate equals the reference
position's — with the drawn radius inside `[min_radius, max_radius]` (the
support of the radius distribution, taken as a hypothesis on the draw). -/
theorem CreateEnemy_spawn_ring (cosf sinf : α → α) (ec : EnemyCreator α)
    (position : Vec3 α) (now : α) (draws : SpawnDraws α)
    (cube_vertices : List (Vec3 α)) (cube_uvs : List (α × α))
    (hr1 : ec.min_radius ≤ draws.radius) (hr2 : draws.radius ≤ ec.max_radius) :
    (now - (ec.next_creation_time - ec.timedelay) < ec.timedelay →
      (EnemyCreator.CreateEnemy cosf sinf ec position now draws
        cube_vertices cube_uvs).1 = none)
    ∧ (∀ e : SceneObject α,
      (EnemyCreator.CreateEnemy cosf sinf ec position now draws
        cube_vertices cube_uvs).1 = some e →
      e.position = position
          + (Vec3.mk (sinf draws.angle_position) 0
              (cosf draws.angle_position)).scale draws.radius
        ∧ e.position.y = position.y
        ∧ ec.min_radius ≤ draws.radius ∧ draws.radius ≤ ec.max_radius) := by
  constructor
  · intro hlt
    have hle : now ≤ ec.next_creation_time := by linarith
    unfold EnemyCreator.CreateEnemy
    rw [if_pos hle]
  · intro e he
    by_cases hgate : now ≤ ec.next_creation_time
    · unfold EnemyCreator.CreateEnemy at he
      rw [if_pos hgate] at he
      simp at he
    · unfold EnemyCreator.CreateEnemy at he
      rw [if_neg hgate] at he
      simp only [Option.some.injEq] at he
      rw [← he]
      refine ⟨rfl, ?_, hr1, hr2⟩
      show (position + (Vec3.mk (sinf draws.angle_position) 0
          (cosf draws.angle_position)).scale draws.radius).y = position.y
      simp

/-- C5 (witness): a spawner with delay 3 and next spawn time 5 produces
nothing at `now = 4` (elapsed `2 < 3`); at `now = 6` it spawns an enemy at
`(1,2,3) + 7 * (sin 2, 0, cos 2)` (with `sin = cos = id` here), whose
y-coordinate is the reference y-coordinate 2. -/
theorem CreateEnemy_spawn_ring_w :
    (EnemyCreator.CreateEnemy (id : ℚ → ℚ) id
      { timedelay := 3, next_creation_time := 5, min_radius := 5,
        max_radius := 50, min_size := 1 / 2, max_size := 4 }
      ⟨1, 2, 3⟩ 4
      { angle_rotation := 1, phi := 1, theta := 1, angle_position := 2,
        radius := 7, size := 1 } [] []).1 = none
    ∧ (CubeEnemy ((⟨1, 2, 3⟩ : Vec3 ℚ)
        + (Vec3.mk (id 2) 0 (id 2)).scale 7) 1 [] []).position.y = 2 := by
  constructor
  · exact (CreateEnemy_spawn_ring (id : ℚ → ℚ) id
      { timedelay := 3, next_creation_time := 5, min_radius := 5,
        max_radius := 50, min_size := 1 / 2, max_size := 4 }
      ⟨1, 2, 3⟩ 4
      { angle_rotation := 1, phi := 1, theta := 1, angle_position := 2,
        radius := 7, size := 1 } [] []
      (by norm_num) (by norm_num)).1 (by norm_num)
  · have h := ((CreateEnemy_spawn_ring (id : ℚ → ℚ) id
      { timedelay := 3, next_creation_time := 5, min_radius := 5,
        max_radius := 50, min_size := 1 / 2, max_size := 4 }
      ⟨1, 2, 3⟩ 6
      { angle_rotation := 1, phi := 1, theta := 1, angle_position := 2,
        radius := 7, size := 1 } [] []
      (by norm_num) (by norm_num)).2
      (CubeEnemy ((⟨1, 2, 3⟩ : Vec3 ℚ)
        + (Vec3.mk (id 2) 0 (id 2)).scale 7) 1 [] [])
      (by norm_num [EnemyCreator.CreateEnemy])).2.1
    exact h

/-! ## The per-tick simulation core of `main`

One iteration of the `do … while` loop, restricted to the simulation (the
rendering calls have no effect on the modeled state): compute
`timediff = current_time - prev_time`; `Shift` every object by
`direction * speed * timediff`; run the collision pass; keep the `remains`
objects and destroy the rest; ask the player for a projectile and append
it; ask the spawner for an enemy (at the player's position) and append it.
The externally polled data (clock readings, cursor, button, random draws,
loaded cube mesh) is a `TickInput`.  The result is the new world state
together with the list of objects destroyed (`delete`d) this tick. -/

/-- The mutable state of `main`'s loop. -/
structure World (α : Type) where
  objects : List (SceneObject α)
  player : Player α
  enemy_creator : EnemyCreator α
  prev_time : α

/-- The externally supplied data consumed during one tick.  The clock is
read again inside `CreateSnowBall` (`fire.now`) and `CreateEnemy`
(`spawn_now`), matching the source's repeated `glfwGetTime()` calls. -/
structure TickInput (α : Type) where
  current_time : α
  fire : FireInput α
  spawn_now : α
  draws : SpawnDraws α
  cube_vertices : List (Vec3 α)
  cube_uvs : List (α × α)

/-- One simulation tick. -/
def tick (cosf sinf : α → α) (w : World α) (inp : TickInput α) :
    World α × List (SceneObject α) :=
  let timediff := inp.current_time - w.prev_time
  let moved := w.objects.map (fun o =>
    o.Shift ((o.direction.scale o.speed).scale timediff))
  let alive := aliveObjects moved
  let destroyed := deadObjects moved
  let fire_result := w.player.CreateSnowBall cosf sinf inp.fire
  let objs1 := alive ++ fire_result.1.toList
  let spawn_result := EnemyCreator.CreateEnemy cosf sinf w.enemy_creator
    fire_result.2.position inp.spawn_now inp.draws inp.cube_vertices
    inp.cube_uvs
  let objs2 := objs1 ++ spawn_result.1.toList
  ({ objects := objs2, player := fire_result.2,
     enemy_creator := spawn_result.2, prev_time := inp.current_time },
   destroyed)

/-! ## Claim C8 -/

/-- C8.  A tick from an empty collection, with the fire button not pressed
and the spawner's delay not yet elapsed, leaves the collection empty and
destroys (releases) no entity. -/
theorem tick_empty_no_triggers (cosf sinf : α → α) (w : World α)
    (inp : TickInput α)
    (hobj : w.objects = [])
    (hfire : inp.fire.mouse_pressed = false)
    (hspawn : inp.spawn_now
        - (w.enemy_creator.next_creation_time - w.enemy_creator.timedelay)
      < w.enemy_creator.timedelay) :
    (tick cosf sinf w inp).1.objects = [] ∧ (tick cosf sinf w inp).2 = [] := by
  have hle : inp.spawn_now ≤ w.enemy_creator.next_creation_time := by linarith
  have hcs : ∀ q : Player α,
      (Player.CreateSnowBall cosf sinf q inp.fire).1 = none := by
    intro q
    unfold Player.CreateSnowBall
    rw [if_neg (by simp [hfire])]
  have hce : ∀ pos : Vec3 α,
      (EnemyCreator.CreateEnemy cosf sinf w.enemy_creator pos inp.spawn_now
        inp.draws inp.cube_vertices inp.cube_uvs).1 = none := by
    intro pos
    unfold EnemyCreator.CreateEnemy
    rw [if_pos hle]
  refine ⟨?_, ?_⟩ <;>
    (unfold tick
     simp [hobj, aliveObjects, deadObjects, collisionPass, hcs, hce])

/-- Test fixture: an empty world whose spawner next fires at time 5. -/
def c8World : World ℚ :=
  { objects := []
    player :=
      { horizontal_angle := 0, vertical_angle := 0, fov := 45,
        position := ⟨0, 0, 0⟩, collider_radius := 1, mouse_speed := 1 / 200,
        timedelay := 1 / 5, next_creation_time := 1 }
    enemy_creator :=
      { timedelay := 3, next_creation_time := 5, min_radius := 5,
        max_radius := 50, min_size := 1 / 2, max_size := 4 }
    prev_time := 0 }

/-- Test fixture: a tick at time 1 with the button up and the spawn clock at
4 (two seconds into the three-second delay). -/
def c8Input : TickInput ℚ :=
  { current_time := 1
    fire := { xpos := 512, ypos := 384, mouse_pressed := false, now := 1 }
    spawn_now := 4
    draws :=
      { angle_rotation := 1, phi := 1, theta := 1, angle_position := 2,
        radius := 7, size := 1 }
    cube_vertices := []
    cube_uvs := [] }

/-- C8 (witness). -/
theorem tick_empty_no_triggers_w :
    (tick (id : ℚ → ℚ) id c8World c8Input).1.objects = []
    ∧ (tick (id : ℚ → ℚ) id c8World c8Input).2 = [] :=
  tick_empty_no_triggers id id c8World c8Input rfl rfl
    (by norm_num [c8World, c8Input])

end Shooter
